import Mathlib

/-!
# MoltID trust scoring and vouch graph: a shallow embedding

This file embeds the trust-scoring and vouch-graph core of the MoltID
service in Lean 4 and proves the specification claims about it.

Embedded source:
* `src/services/trust.ts` (`TrustService.calculateScore`, `TrustService.getDetails`)
* `src/services/agent.ts` (`AgentService.addVouch`, lookups, `update`)
* `src/routes/agents.ts` (`POST /:id/vouch` handler)
* `src/db/schema.sql` (`agents` and `vouches` tables)

Modelling conventions:
* The D1/SQLite database is an explicit state: a list of agent rows and a
  list of vouch edges.  `SELECT ... WHERE id = ?` with a primary-key column
  becomes `List.find?`.
* JavaScript timestamps become integer milliseconds since the epoch;
  `new Date(s).getTime()` on the stored `created_at` text is modelled by
  storing the parsed millisecond value directly.
* `Math.floor(a / b)` on integer-valued numbers is `Int.fdiv` (floor
  division, rounding toward negative infinity, exactly as `Math.floor`).
* Nullable columns become `Option`; JavaScript `x || 0` becomes
  `jsNumOr0` (`null`/missing and `0` both give `0`).
* A throwing `INSERT` becomes `Except`: the error branch carries no state
  change, matching the caller catching (or re-throwing) the exception
  before any later statement runs.  The constraints of `schema.sql` that
  can make the vouch insert throw — the `UNIQUE(from_agent_id,
  to_agent_id)` index and the `FOREIGN KEY ... REFERENCES agents(id)`
  constraints, both enforced by D1 — are modelled explicitly.
-/

namespace MoltID

/-- Agent account status, `status` column of `agents`
(`CHECK (status IN ('pending', 'active', 'suspended'))`). -/
inductive Status where
  | pending
  | active
  | suspended
deriving DecidableEq, Repr

/-- One row of the `agents` table, with the fields the trust/vouch core
reads or writes (`src/db/schema.sql`, `parseAgent` in
`src/services/agent.ts`).  `created_at` is the millisecond timestamp
value of the stored text. -/
structure Agent where
  id : String
  moltbook_verified : Bool
  moltbook_karma : Option Int
  trust_score : Int
  vouch_count : Int
  status : Status
  created_at : Int
deriving DecidableEq, Repr

/-- One row of the `vouches` table: a directed edge voucher → recipient.
The surrogate `id` column plays no role in any behaviour modelled here
(uniqueness is on the pair), so it is omitted. -/
structure Vouch where
  from_agent_id : String
  to_agent_id : String
deriving DecidableEq, Repr

/-- The database state: the `agents` table and the `vouches` table. -/
structure DB where
  agents : List Agent
  vouches : List Vouch
deriving DecidableEq, Repr

/-- Milliseconds per day, the `1000 * 60 * 60 * 24` of
`TrustService.calculateScore`. -/
def msPerDay : Int := 86400000

/-- `MOLTBOOK_VERIFIED_POINTS` in `trust.ts`. -/
def MOLTBOOK_VERIFIED_POINTS : Int := 20

/-- `KARMA_MAX_POINTS` in `trust.ts`. -/
def KARMA_MAX_POINTS : Int := 30

/-- `KARMA_DIVISOR` in `trust.ts`. -/
def KARMA_DIVISOR : Int := 100

/-- `AGE_MAX_POINTS` in `trust.ts`. -/
def AGE_MAX_POINTS : Int := 20

/-- `VOUCH_POINTS_EACH` in `trust.ts`. -/
def VOUCH_POINTS_EACH : Int := 5

/-- `VOUCH_MAX_POINTS` in `trust.ts`. -/
def VOUCH_MAX_POINTS : Int := 30

/-- `MAX_TOTAL_SCORE` in `trust.ts`. -/
def MAX_TOTAL_SCORE : Int := 100

/-- `SELECT * FROM agents WHERE id = ?` followed by `.first()`:
the first row whose primary key matches. -/
def findAgent (db : DB) (id : String) : Option Agent :=
  db.agents.find? (fun a => a.id = id)

/-- JavaScript `x || 0` on a nullable number: `null` (and `0`) give `0`. -/
def jsNumOr0 : Option Int → Int
  | none => 0
  | some k => k

/-- The Moltbook verification contribution:
`if (agent.moltbook_verified) score += MOLTBOOK_VERIFIED_POINTS`. -/
def verificationFactor (verified : Bool) : Int :=
  if verified then MOLTBOOK_VERIFIED_POINTS else 0

/-- The karma contribution:
`Math.min(Math.floor((agent.moltbook_karma || 0) / KARMA_DIVISOR), KARMA_MAX_POINTS)`. -/
def karmaFactor (karma : Option Int) : Int :=
  min (Int.fdiv (jsNumOr0 karma) KARMA_DIVISOR) KARMA_MAX_POINTS

/-- `ageDays`: `Math.floor((Date.now() - createdAt.getTime()) / (1000*60*60*24))`. -/
def ageDaysOf (created_at now : Int) : Int :=
  Int.fdiv (now - created_at) msPerDay

/-- The age contribution: `Math.min(ageDays, AGE_MAX_POINTS)`. -/
def ageFactor (created_at now : Int) : Int :=
  min (ageDaysOf created_at now) AGE_MAX_POINTS

/-- The `JOIN agents a ON v.from_agent_id = a.id ... AND a.moltbook_verified = 1`
condition: the voucher row exists and is Moltbook-verified.  (`agents.id`
is the primary key, so the join matches at most one row.) -/
def voucherVerified (db : DB) (fromId : String) : Bool :=
  match findAgent db fromId with
  | none => false
  | some a => a.moltbook_verified

/-- The `SELECT COUNT(*) FROM vouches v JOIN agents a ...
WHERE v.to_agent_id = ? AND a.moltbook_verified = 1` count: incoming
edges whose voucher is currently verified. -/
def qualifyingVouchCount (db : DB) (toId : String) : Nat :=
  (db.vouches.filter
    (fun v => v.to_agent_id = toId && voucherVerified db v.from_agent_id)).length

/-- The vouch contribution applied to a count:
`Math.min(vouchCount * VOUCH_POINTS_EACH, VOUCH_MAX_POINTS)`. -/
def vouchFactorOf (n : Int) : Int :=
  min (n * VOUCH_POINTS_EACH) VOUCH_MAX_POINTS

/-- `TrustService.calculateScore`: look the agent up by id (`0` if
absent), accumulate the four contributions, and cap at
`MAX_TOTAL_SCORE`.  `now` is the `Date.now()` of the call. -/
def calculateScore (db : DB) (now : Int) (agentId : String) : Int :=
  match findAgent db agentId with
  | none => 0
  | some agent =>
      let score1 := 0 + verificationFactor agent.moltbook_verified
      let score2 := score1 + karmaFactor agent.moltbook_karma
      let score3 := score2 + ageFactor agent.created_at now
      let score4 := score3 +
        vouchFactorOf (qualifyingVouchCount db agentId : Int)
      min score4 MAX_TOTAL_SCORE

/-- The `factors` object of `TrustService.getDetails`. -/
structure TrustFactors where
  moltbook_verified : Int
  karma : Int
  age : Int
  vouches : Int
deriving DecidableEq, Repr

/-- The `TrustDetails` return value of `TrustService.getDetails`. -/
structure TrustDetails where
  score : Int
  factors : TrustFactors
  moltbook_verified : Bool
  moltbook_karma : Option Int
  vouch_count : Int
  age_days : Int
deriving DecidableEq, Repr

/-- `TrustService.getDetails`: the per-factor breakdown computed from the
agent row alone.  Note two facts of the source, proved below: the
reported `score` is the stored `agent.trust_score`, and the vouch factor
is computed from the denormalized `agent.vouch_count` (all incoming
vouches), not from the verified-voucher count used by `calculateScore`. -/
def getDetails (agent : Agent) (now : Int) : TrustDetails :=
  let ageDays := ageDaysOf agent.created_at now
  { score := agent.trust_score
    factors :=
      { moltbook_verified := verificationFactor agent.moltbook_verified
        karma := karmaFactor agent.moltbook_karma
        age := min ageDays AGE_MAX_POINTS
        vouches := min (agent.vouch_count * VOUCH_POINTS_EACH) VOUCH_MAX_POINTS }
    moltbook_verified := agent.moltbook_verified
    moltbook_karma := agent.moltbook_karma
    vouch_count := agent.vouch_count
    age_days := ageDays }

/-- Sum of the four reported factors of a breakdown. -/
def factorSum (d : TrustDetails) : Int :=
  d.factors.moltbook_verified + d.factors.karma + d.factors.age + d.factors.vouches

/-- A storage-level failure of the `INSERT INTO vouches`: either the
`UNIQUE(from_agent_id, to_agent_id)` constraint of `schema.sql`, or one
of its `FOREIGN KEY ... REFERENCES agents(id)` constraints (D1 enforces
foreign keys; the repo's test setup deletes tables in an order chosen
"to respect foreign key constraints"). -/
inductive StoreError where
  | uniqueConstraint
  | foreignKey
deriving DecidableEq, Repr

/-- Whether the `(from, to)` edge already exists — the state in which the
`INSERT` of `addVouch` violates the unique index. -/
def hasEdge (db : DB) (fromId toId : String) : Bool :=
  db.vouches.any (fun v => v.from_agent_id = fromId && v.to_agent_id = toId)

/-- The `UPDATE agents SET vouch_count = vouch_count + 1 WHERE id = ?`
applied to one row. -/
def bumpVouchCount (a : Agent) : Agent :=
  { a with vouch_count := a.vouch_count + 1 }

/-- The state produced by a successful `addVouch` insert: the edge is
appended and the recipient's denormalized counter incremented. -/
def insertVouch (db : DB) (fromId toId : String) : DB :=
  { agents := (db.agents.map
      (fun a => if a.id = toId then bumpVouchCount a else a))
    vouches := db.vouches ++ [⟨fromId, toId⟩] }

/-- `AgentService.addVouch`: a bare `INSERT` of the edge followed by the
counter `UPDATE`.  The service code performs no self-vouch, existence,
or verification check of its own; the only failure modes are the
storage-level constraints of `schema.sql`, which D1 enforces: the
`UNIQUE(from_agent_id, to_agent_id)` index, and the two
`FOREIGN KEY ... REFERENCES agents(id)` constraints requiring both ids
to name existing agent rows.  (When the insert throws either way, no
later statement runs, so the counter is untouched.  In a state violating
both constraints at once the model reports the uniqueness error; no
property proved here depends on that ordering, only on which states
fail.)  There is no
`CHECK (from_agent_id <> to_agent_id)`, so a
self-loop between an existing agent and itself passes every schema
constraint. -/
def addVouch (db : DB) (fromId toId : String) : Except StoreError DB :=
  if hasEdge db fromId toId then
    .error .uniqueConstraint
  else if (findAgent db fromId).isSome && (findAgent db toId).isSome then
    .ok (insertVouch db fromId toId)
  else
    .error .foreignKey

/-- `AgentService.update(id, { trust_score })`:
`UPDATE agents SET trust_score = ? WHERE id = ?`. -/
def setTrustScore (db : DB) (id : String) (s : Int) : DB :=
  { db with agents := (db.agents.map
      (fun a => if a.id = id then { a with trust_score := s } else a)) }

/-- `AgentService.update(id, { status })`:
`UPDATE agents SET status = ? WHERE id = ?`. -/
def setStatus (db : DB) (id : String) (s : Status) : DB :=
  { db with agents := (db.agents.map
      (fun a => if a.id = id then { a with status := s } else a)) }

/-- Terminal outcome of the `POST /v1/agents/:id/vouch` handler, named
after the response codes it maps to. -/
inductive VouchOutcome where
  | unauthorized
  | notFound
  | invalidVouch
  | alreadyVouched
  | internalError
  | success (newTrustScore : Int)
deriving DecidableEq, Repr

/-- The `POST /v1/agents/:id/vouch` handler of `src/routes/agents.ts`:
reject if the voucher is missing or unverified, then if the target is
missing, then if `from == to`; otherwise insert the edge, recompute the
recipient's score over the post-insert state, and persist it.  The
catch block maps only a throw whose message mentions the `UNIQUE`
constraint to `alreadyVouched` (409); any other throw is re-thrown and
lands in the app's 500 handler, modelled as `internalError`.  (That arm
is unreachable from the handler's own checks, which established both
agents exist just before the insert.) -/
def vouchRoute (db : DB) (now : Int) (toId fromId : String) :
    VouchOutcome × DB :=
  match findAgent db fromId with
  | none => (.unauthorized, db)
  | some voucher =>
      if voucher.moltbook_verified then
        match findAgent db toId with
        | none => (.notFound, db)
        | some _ =>
            if fromId = toId then
              (.invalidVouch, db)
            else
              match addVouch db fromId toId with
              | .error .uniqueConstraint => (.alreadyVouched, db)
              | .error .foreignKey => (.internalError, db)
              | .ok db1 =>
                  let newScore := calculateScore db1 now toId
                  (.success newScore, setTrustScore db1 toId newScore)
      else
        (.unauthorized, db)

/-! ## Concrete fixture states

Small database states used to evaluate the definitions at concrete
inputs (witnesses and counterexamples). -/

/-- A verified agent whose `created_at` lies one day in the future of
the evaluation instant `now = 0`. -/
def futureAgent : Agent := ⟨"fut", true, none, 0, 0, .active, 86400000⟩

/-- Database holding only `futureAgent`. -/
def futureDB : DB := ⟨[futureAgent], []⟩

/-- The same agent as `futureAgent` but created exactly at the
evaluation instant. -/
def presentAgent : Agent := ⟨"fut", true, none, 0, 0, .active, 0⟩

/-- Database holding only `presentAgent`. -/
def presentDB : DB := ⟨[presentAgent], []⟩

/-- An otherwise-zero agent created two days in the future of
`now = 0`. -/
def negAgeAgent : Agent := ⟨"neg", false, none, 0, 0, .pending, 172800000⟩

/-- Database holding only `negAgeAgent`. -/
def negAgeDB : DB := ⟨[negAgeAgent], []⟩

/-- An agent whose stored `trust_score` (42) was not recomputed from its
other fields (all of which contribute 0), mirroring the
`returns preserved score from agent object` unit test fixture. -/
def preservedAgent : Agent := ⟨"pres", false, none, 42, 0, .active, 0⟩

/-- A verified agent with 500 karma, created at time 0, whose stored
`trust_score` (30) is exactly its recomputed score at `now` = 5 days
(20 verification + 5 karma + 5 age + 0 vouches). -/
def cAgentA : Agent := ⟨"A", true, some 500, 30, 0, .active, 0⟩

/-- Database holding only `cAgentA`. -/
def cdbA : DB := ⟨[cAgentA], []⟩

/-- A verified voucher agent. -/
def wVoucher : Agent := ⟨"A", true, none, 0, 0, .active, 0⟩

/-- An unverified vouch recipient. -/
def wTarget : Agent := ⟨"B", false, none, 0, 0, .pending, 0⟩

/-- Database holding `wVoucher` and `wTarget`, with no vouch edges. -/
def wdb : DB := ⟨[wVoucher, wTarget], []⟩

/-! ## Helper lemmas -/

/-- `find?` commutes with a `map` that does not change the predicate. -/
theorem find?_map_pres {α : Type} (f : α → α) (p : α → Bool) (l : List α)
    (hf : ∀ a, p (f a) = p a) :
    (l.map f).find? p = (l.find? p).map f := by
  rw [List.find?_map]
  have hpf : (p ∘ f) = p := funext hf
  rw [hpf]

/-- Agent lookup through an agents-table rewrite that preserves ids. -/
theorem findAgent_map (l : List Agent) (V : List Vouch) (f : Agent → Agent)
    (hid : ∀ a, (f a).id = a.id) (x : String) :
    findAgent ⟨l.map f, V⟩ x = (findAgent ⟨l, V⟩ x).map f := by
  unfold findAgent
  exact find?_map_pres f _ l (fun a => by simp [hid a])

/-- `voucherVerified` is unchanged by an agents-table rewrite that
preserves ids and verification flags (it never reads the vouches). -/
theorem voucherVerified_map (l : List Agent) (V : List Vouch) (f : Agent → Agent)
    (hid : ∀ a, (f a).id = a.id)
    (hver : ∀ a, (f a).moltbook_verified = a.moltbook_verified) (x : String) :
    voucherVerified ⟨l.map f, V⟩ x = voucherVerified ⟨l, V⟩ x := by
  unfold voucherVerified
  rw [findAgent_map l V f hid]
  cases findAgent ⟨l, V⟩ x with
  | none => rfl
  | some a => simp [hver a]

/-- `qualifyingVouchCount` is unchanged by an agents-table rewrite that
preserves ids and verification flags. -/
theorem qualifyingVouchCount_map (l : List Agent) (V : List Vouch)
    (f : Agent → Agent) (hid : ∀ a, (f a).id = a.id)
    (hver : ∀ a, (f a).moltbook_verified = a.moltbook_verified) (t : String) :
    qualifyingVouchCount ⟨l.map f, V⟩ t = qualifyingVouchCount ⟨l, V⟩ t := by
  unfold qualifyingVouchCount
  simp only [voucherVerified_map l V f hid hver]

/-- `calculateScore` is unchanged by an agents-table rewrite that
preserves every field it reads (id, verification flag, karma,
creation time). -/
theorem calculateScore_map (l : List Agent) (V : List Vouch) (f : Agent → Agent)
    (hid : ∀ a, (f a).id = a.id)
    (hver : ∀ a, (f a).moltbook_verified = a.moltbook_verified)
    (hk : ∀ a, (f a).moltbook_karma = a.moltbook_karma)
    (hc : ∀ a, (f a).created_at = a.created_at) (now : Int) (t : String) :
    calculateScore ⟨l.map f, V⟩ now t = calculateScore ⟨l, V⟩ now t := by
  unfold calculateScore
  rw [findAgent_map l V f hid, qualifyingVouchCount_map l V f hid hver]
  cases findAgent ⟨l, V⟩ t with
  | none => rfl
  | some a => simp [hver a, hk a, hc a]

theorem verificationFactor_nonneg (b : Bool) : 0 ≤ verificationFactor b := by
  cases b <;> simp [verificationFactor, MOLTBOOK_VERIFIED_POINTS]

theorem verificationFactor_le (b : Bool) : verificationFactor b ≤ 20 := by
  cases b <;> simp [verificationFactor, MOLTBOOK_VERIFIED_POINTS]

theorem karmaFactor_le (k : Option Int) : karmaFactor k ≤ 30 :=
  min_le_right _ _

theorem karmaFactor_nonneg (k : Option Int) (hk : 0 ≤ jsNumOr0 k) :
    0 ≤ karmaFactor k := by
  unfold karmaFactor
  refine le_min (Int.fdiv_nonneg hk (by decide)) (by decide)

theorem ageFactor_le (c n : Int) : ageFactor c n ≤ 20 :=
  min_le_right _ _

theorem ageFactor_nonneg (c n : Int) (h : c ≤ n) : 0 ≤ ageFactor c n := by
  unfold ageFactor ageDaysOf
  refine le_min (Int.fdiv_nonneg (by omega) (by decide)) (by decide)

theorem ageFactor_neg (c n : Int) (h : n < c) : ageFactor c n < 0 := by
  have hdiv : Int.fdiv (n - c) msPerDay < 0 := by
    rw [Int.fdiv_eq_ediv _ (by decide : (0:Int) ≤ msPerDay)]
    exact Int.ediv_neg' (by omega) (by decide)
  calc ageFactor c n ≤ Int.fdiv (n - c) msPerDay := min_le_left _ _
    _ < 0 := hdiv

theorem vouchFactorOf_le (n : Int) : vouchFactorOf n ≤ 30 :=
  min_le_right _ _

theorem vouchFactorOf_nonneg (n : Nat) : 0 ≤ vouchFactorOf (n : Int) := by
  unfold vouchFactorOf VOUCH_POINTS_EACH VOUCH_MAX_POINTS
  refine le_min (by positivity) (by decide)

/-- When the agent exists, `calculateScore` is exactly the sum of the four
clamped factors: the outer `MAX_TOTAL_SCORE` cap never binds, because the
four per-factor caps already sum to 100. -/
theorem calculateScore_eq (db : DB) (now : Int) (id : String) (a : Agent)
    (ha : findAgent db id = some a) :
    calculateScore db now id =
      verificationFactor a.moltbook_verified + karmaFactor a.moltbook_karma +
      ageFactor a.created_at now +
      vouchFactorOf (qualifyingVouchCount db id : Int) := by
  unfold calculateScore
  rw [ha]
  simp only
  rw [min_eq_left]
  · ring
  · have h1 := verificationFactor_le a.moltbook_verified
    have h2 := karmaFactor_le a.moltbook_karma
    have h3 := ageFactor_le a.created_at now
    have h4 := vouchFactorOf_le (qualifyingVouchCount db id : Int)
    unfold MAX_TOTAL_SCORE
    omega

theorem calculateScore_le (db : DB) (now : Int) (id : String) :
    calculateScore db now id ≤ 100 := by
  cases h : findAgent db id with
  | none =>
      simp [calculateScore, h]
  | some a =>
      rw [calculateScore_eq db now id a h]
      have h1 := verificationFactor_le a.moltbook_verified
      have h2 := karmaFactor_le a.moltbook_karma
      have h3 := ageFactor_le a.created_at now
      have h4 := vouchFactorOf_le (qualifyingVouchCount db id : Int)
      omega


theorem addVouch_ok (db : DB) (fromId toId : String)
    (h : hasEdge db fromId toId = false)
    (hf : (findAgent db fromId).isSome = true)
    (ht : (findAgent db toId).isSome = true) :
    addVouch db fromId toId = .ok (insertVouch db fromId toId) := by
  simp [addVouch, h, hf, ht]

theorem addVouch_dup (db : DB) (fromId toId : String)
    (h : hasEdge db fromId toId = true) :
    addVouch db fromId toId = .error .uniqueConstraint := by
  simp [addVouch, h]

theorem findAgent_id {db : DB} {x : String} {a : Agent}
    (h : findAgent db x = some a) : a.id = x := by
  unfold findAgent at h
  have hp := List.find?_some h
  simpa using hp

theorem findAgent_insertVouch (db : DB) (fromId toId x : String) :
    findAgent (insertVouch db fromId toId) x =
      (findAgent db x).map
        (fun a => if a.id = toId then bumpVouchCount a else a) := by
  unfold insertVouch
  exact findAgent_map db.agents _ _
    (fun a => by by_cases h : a.id = toId <;> simp [h, bumpVouchCount]) x

theorem findAgent_setTrustScore (X : DB) (i : String) (s : Int) (x : String) :
    findAgent (setTrustScore X i s) x =
      (findAgent X x).map
        (fun a => if a.id = i then { a with trust_score := s } else a) := by
  unfold setTrustScore
  exact findAgent_map X.agents X.vouches _
    (fun a => by by_cases h : a.id = i <;> simp [h]) x

theorem hasEdge_insert (db : DB) (fromId toId : String) :
    hasEdge (insertVouch db fromId toId) fromId toId = true := by
  simp [hasEdge, insertVouch]

theorem qualifyingVouchCount_insert (db : DB) (fromId toId : String)
    (hv : voucherVerified db fromId = true) :
    qualifyingVouchCount ⟨db.agents, db.vouches ++ [⟨fromId, toId⟩]⟩ toId =
      qualifyingVouchCount db toId + 1 := by
  unfold qualifyingVouchCount
  have hrw : ∀ x, voucherVerified ⟨db.agents, db.vouches ++ [⟨fromId, toId⟩]⟩ x =
      voucherVerified db x := fun x => rfl
  simp only [hrw]
  rw [List.filter_append, List.length_append]
  simp [hv]

/-- Recomputing the score over the post-insert state, for a qualifying
(verified) voucher: the vouch count the scorer sees is one larger. -/
theorem calculateScore_insertVouch (db : DB) (now : Int) (fromId toId : String)
    (t : Agent) (ht : findAgent db toId = some t)
    (hv : voucherVerified db fromId = true) :
    calculateScore (insertVouch db fromId toId) now toId =
      verificationFactor t.moltbook_verified + karmaFactor t.moltbook_karma +
      ageFactor t.created_at now +
      vouchFactorOf ((qualifyingVouchCount db toId + 1 : Nat) : Int) := by
  have hmap : calculateScore (insertVouch db fromId toId) now toId =
      calculateScore ⟨db.agents, db.vouches ++ [⟨fromId, toId⟩]⟩ now toId := by
    unfold insertVouch
    exact calculateScore_map db.agents _ _
      (fun a => by by_cases h : a.id = toId <;> simp [h, bumpVouchCount])
      (fun a => by by_cases h : a.id = toId <;> simp [h, bumpVouchCount])
      (fun a => by by_cases h : a.id = toId <;> simp [h, bumpVouchCount])
      (fun a => by by_cases h : a.id = toId <;> simp [h, bumpVouchCount])
      now toId
  rw [hmap]
  have ht' : findAgent ⟨db.agents, db.vouches ++ [⟨fromId, toId⟩]⟩ toId = some t := ht
  rw [calculateScore_eq _ now toId t ht']
  rw [qualifyingVouchCount_insert db fromId toId hv]

theorem vouchFactorOf_succ (n : Nat) :
    vouchFactorOf ((n + 1 : Nat) : Int) =
      if 6 <= n then vouchFactorOf (n : Int) else vouchFactorOf (n : Int) + 5 := by
  unfold vouchFactorOf VOUCH_POINTS_EACH VOUCH_MAX_POINTS
  split <;> push_cast <;> omega

/-- The happy path of the vouch handler: all checks pass, the edge is
inserted, the recipient score is recomputed on the post-insert state and
persisted. -/
theorem vouchRoute_success (db : DB) (now : Int) (fromId toId : String)
    (v t : Agent) (h1 : findAgent db fromId = some v)
    (h2 : v.moltbook_verified = true)
    (h3 : findAgent db toId = some t)
    (h4 : fromId ≠ toId) (h5 : hasEdge db fromId toId = false) :
    vouchRoute db now toId fromId =
      (.success (calculateScore (insertVouch db fromId toId) now toId),
       setTrustScore (insertVouch db fromId toId) toId
         (calculateScore (insertVouch db fromId toId) now toId)) := by
  unfold vouchRoute
  rw [h1, h3]
  simp only [h2, if_true, if_neg h4]
  rw [addVouch_ok db fromId toId h5 (by rw [h1]; rfl) (by rw [h3]; rfl)]

/-! ## Claim theorems -/

/-- C1 counterexample: the claim "the age factor is clamped to [0, 20]
and never negative; a future `created_at` contributes 0 and never
reduces the score" is false on the code.  For a `created_at` one day
after `now`, the age contribution is `-1` (not `0`), and the score of a
verified agent drops from 20 to 19. -/
theorem age_factor_future_counterexample :
    ageFactor 86400000 0 = -1 ∧ ageFactor 86400000 0 < 0 ∧
    calculateScore futureDB 0 "fut" = 19 ∧
    calculateScore presentDB 0 "fut" = 20 :=
  ⟨by decide, by decide, by decide, by decide⟩

/-- C1 (amended): the age factor is `floor(elapsedDays)` capped above at
20 (`AGE_MAX_POINTS`) but not clamped below: it is non-negative whenever
`created_at <= now`, and strictly negative — reducing the score — whenever
`created_at` is in the future. -/
theorem age_factor_amended (created_at now : Int) :
    ageFactor created_at now ≤ AGE_MAX_POINTS ∧
    (created_at ≤ now → 0 ≤ ageFactor created_at now) ∧
    (now < created_at → ageFactor created_at now < 0) :=
  ⟨ageFactor_le _ _, ageFactor_nonneg _ _, ageFactor_neg _ _⟩

/-- Witness for `age_factor_amended` at concrete inputs. -/
theorem age_factor_amended_witness :
    ((0:Int) ≤ 5 ∧ 0 ≤ ageFactor 0 5) ∧
    ((5:Int) < 86400001 ∧ ageFactor 86400001 5 < 0) :=
  ⟨⟨by decide, (age_factor_amended 0 5).2.1 (by decide)⟩,
   ⟨by decide, (age_factor_amended 86400001 5).2.2 (by decide)⟩⟩

/-- C2 counterexample: the claim "for every agent state the total score
lies in [0, 100]" is false on the code: an otherwise-zero agent created
two days in the future of the evaluation instant scores `-2`. -/
theorem trust_score_negative_counterexample :
    calculateScore negAgeDB 0 "neg" = -2 ∧ calculateScore negAgeDB 0 "neg" < 0 :=
  ⟨by decide, by decide⟩

/-- C2 (amended): the total score is always at most 100; it is
additionally at least 0 whenever the agent's `created_at` is not in the
future and its karma (defaulted to 0 when null) is non-negative. -/
theorem trust_score_bounds_amended (db : DB) (now : Int) (agentId : String) :
    calculateScore db now agentId ≤ 100 ∧
    (∀ a, findAgent db agentId = some a → a.created_at ≤ now →
      0 ≤ jsNumOr0 a.moltbook_karma → 0 ≤ calculateScore db now agentId) := by
  refine ⟨calculateScore_le db now agentId, ?_⟩
  intro a ha hc hk
  rw [calculateScore_eq db now agentId a ha]
  have g1 := verificationFactor_nonneg a.moltbook_verified
  have g2 := karmaFactor_nonneg a.moltbook_karma hk
  have g3 := ageFactor_nonneg a.created_at now hc
  have g4 := vouchFactorOf_nonneg (qualifyingVouchCount db agentId)
  omega

/-- Witness for `trust_score_bounds_amended` at a concrete state. -/
theorem trust_score_bounds_amended_witness :
    calculateScore cdbA 432000000 "A" ≤ 100 ∧
    (findAgent cdbA "A" = some cAgentA ∧ cAgentA.created_at ≤ 432000000 ∧
     0 ≤ jsNumOr0 cAgentA.moltbook_karma ∧ 0 ≤ calculateScore cdbA 432000000 "A") :=
  ⟨(trust_score_bounds_amended cdbA 432000000 "A").1,
   by decide, by decide, by decide,
   (trust_score_bounds_amended cdbA 432000000 "A").2 cAgentA
     (by decide) (by decide) (by decide)⟩

/-- C3 counterexample: the claim "the four reported factors sum exactly
to the reported total" is false on the code: `getDetails` reports the
stored `trust_score` (here 42) while all four factors are 0. -/
theorem breakdown_sum_counterexample :
    factorSum (getDetails preservedAgent 0) = 0 ∧
    (getDetails preservedAgent 0).score = 42 :=
  ⟨by decide, by decide⟩

/-- C3 (amended): each reported factor equals the clamp of the
corresponding denormalized agent field — with the vouch factor computed
from the agent's total `vouch_count`, not the verified-voucher count —
and the reported score is the stored `trust_score`.  The factors sum to
the reported score when the stored score is the freshly recomputed one
and `vouch_count` equals the qualifying (verified-voucher) vouch count;
with a stale score, or a `vouch_count` that includes unverified
vouchers, the sum can differ from the reported score. -/
theorem breakdown_amended (db : DB) (now : Int) (id : String) (a : Agent)
    (ha : findAgent db id = some a)
    (hts : a.trust_score = calculateScore db now id)
    (hvc : a.vouch_count = (qualifyingVouchCount db id : Int)) :
    (getDetails a now).score = a.trust_score ∧
    (getDetails a now).factors.moltbook_verified =
      verificationFactor a.moltbook_verified ∧
    (getDetails a now).factors.karma = karmaFactor a.moltbook_karma ∧
    (getDetails a now).factors.age = ageFactor a.created_at now ∧
    (getDetails a now).factors.vouches =
      vouchFactorOf (qualifyingVouchCount db id : Int) ∧
    factorSum (getDetails a now) = (getDetails a now).score := by
  refine ⟨rfl, rfl, rfl, rfl, ?_, ?_⟩
  · show min (a.vouch_count * VOUCH_POINTS_EACH) VOUCH_MAX_POINTS = _
    rw [hvc]
    rfl
  · show verificationFactor a.moltbook_verified + karmaFactor a.moltbook_karma +
      min (ageDaysOf a.created_at now) AGE_MAX_POINTS +
      min (a.vouch_count * VOUCH_POINTS_EACH) VOUCH_MAX_POINTS = a.trust_score
    rw [hvc, hts, calculateScore_eq db now id a ha]
    rfl

/-- Witness for `breakdown_amended` at a consistent concrete state. -/
theorem breakdown_amended_witness :
    findAgent cdbA "A" = some cAgentA ∧
    cAgentA.trust_score = calculateScore cdbA 432000000 "A" ∧
    factorSum (getDetails cAgentA 432000000) = (getDetails cAgentA 432000000).score :=
  ⟨by decide, by decide,
   (breakdown_amended cdbA 432000000 "A" cAgentA
     (by decide) (by decide) (by decide)).2.2.2.2.2⟩

/-- C8 counterexample: the claim "the karma factor equals
`floor(karma / 100)` clamped to [0, 30]" is false on the code for
negative karma: karma `-100` gives factor `-1`, below the claimed lower
clamp of 0. -/
theorem karma_factor_negative_counterexample :
    karmaFactor (some (-100)) = -1 ∧ karmaFactor (some (-100)) < 0 :=
  ⟨by decide, by decide⟩

/-- C8 (amended): the karma factor is `min(floor(karma / 100), 30)` —
capped above at 30 but not clamped below 0.  It is monotonic
non-decreasing in karma, steps by one per 100 karma, is flat at 30 for
karma ≥ 3000, treats null karma as 0, lies in [0, 30] for non-negative
karma, and satisfies the quoted examples (2500 → 25, 99 → 0,
10000 → 30). -/
theorem karma_factor_amended (k k2 : Int) :
    (k ≤ k2 → karmaFactor (some k) ≤ karmaFactor (some k2)) ∧
    (0 ≤ k → 0 ≤ karmaFactor (some k) ∧ karmaFactor (some k) ≤ KARMA_MAX_POINTS) ∧
    (3000 ≤ k → karmaFactor (some k) = KARMA_MAX_POINTS) ∧
    karmaFactor (some (k + 100)) = min (Int.fdiv k 100 + 1) KARMA_MAX_POINTS ∧
    karmaFactor none = 0 ∧
    karmaFactor (some 2500) = 25 ∧
    karmaFactor (some 99) = 0 ∧
    karmaFactor (some 10000) = 30 := by
  have hdiv : ∀ x y : Int, x ≤ y → Int.fdiv x 100 ≤ Int.fdiv y 100 := by
    intro x y hxy
    rw [Int.fdiv_eq_ediv x (by decide : (0:Int) ≤ 100),
        Int.fdiv_eq_ediv y (by decide : (0:Int) ≤ 100)]
    exact Int.ediv_le_ediv (by decide) hxy
  refine ⟨?_, ?_, ?_, ?_, by decide, by decide, by decide, by decide⟩
  · intro hk
    exact min_le_min (hdiv k k2 hk) le_rfl
  · intro hk
    refine ⟨le_min (Int.fdiv_nonneg hk (by decide)) (by decide), min_le_right _ _⟩
  · intro hk
    have h30 : (30:Int) ≤ Int.fdiv k 100 := by
      have := hdiv 3000 k hk
      simpa using this
    exact min_eq_right h30
  · show min (Int.fdiv (k + 100) 100) KARMA_MAX_POINTS = _
    have : Int.fdiv (k + 100) 100 = Int.fdiv k 100 + 1 := by
      rw [Int.fdiv_eq_ediv (k + 100) (by decide : (0:Int) ≤ 100),
          Int.fdiv_eq_ediv k (by decide : (0:Int) ≤ 100)]
      have := Int.add_mul_ediv_right k 1 (show (100:Int) ≠ 0 by decide)
      simpa using this
    rw [this]

/-- Witness for `karma_factor_amended` at concrete inputs. -/
theorem karma_factor_amended_witness :
    ((0:Int) ≤ 250 ∧ karmaFactor (some 0) ≤ karmaFactor (some 250)) ∧
    ((3000:Int) ≤ 4500 ∧ karmaFactor (some 4500) = KARMA_MAX_POINTS) :=
  ⟨⟨by decide, (karma_factor_amended 0 250).1 (by decide)⟩,
   ⟨by decide, (karma_factor_amended 4500 0).2.2.1 (by decide)⟩⟩

/-- C10 (confirmed): for an id that references no agent row, the score
computation returns 0 rather than failing. -/
theorem missing_agent_score_zero (db : DB) (now : Int) (agentId : String)
    (h : findAgent db agentId = none) : calculateScore db now agentId = 0 := by
  unfold calculateScore
  rw [h]

/-- Witness for `missing_agent_score_zero` on the empty database. -/
theorem missing_agent_score_zero_witness :
    findAgent ⟨[], []⟩ "mlt_nonexistent" = none ∧
    calculateScore ⟨[], []⟩ 0 "mlt_nonexistent" = 0 :=
  ⟨by decide, missing_agent_score_zero ⟨[], []⟩ 0 "mlt_nonexistent" (by decide)⟩

/-- C5 (confirmed): a vouch request with `from == to` is rejected by the
route for every database state — with `unauthorized` when the agent is
missing or unverified, with `invalidVouch` when it is verified — and the
state is unchanged, so no self-loop edge is ever inserted through the
vouch endpoint. -/
theorem self_vouch_always_rejected (db : DB) (now : Int) (aId : String) :
    ((vouchRoute db now aId aId).1 = VouchOutcome.unauthorized ∨
     (vouchRoute db now aId aId).1 = VouchOutcome.invalidVouch) ∧
    (vouchRoute db now aId aId).2 = db := by
  unfold vouchRoute
  cases h : findAgent db aId with
  | none => exact ⟨Or.inl rfl, rfl⟩
  | some v =>
      cases hv : v.moltbook_verified with
      | false => simp [hv]
      | true => simp [hv]

/-- C6 (confirmed): the vouch factor of the score is
`min(5 * qualifyingVouchCount, 30)` where the qualifying count only
counts incoming edges whose voucher is verified at computation time;
adding an edge from an unverified voucher never changes any score; and
an agent's `status` (pending/active/suspended) never affects any score. -/
theorem vouch_factor_semantics (db : DB) (now : Int) (id : String) :
    (∀ a, findAgent db id = some a → calculateScore db now id =
        verificationFactor a.moltbook_verified + karmaFactor a.moltbook_karma +
        ageFactor a.created_at now +
        vouchFactorOf (qualifyingVouchCount db id : Int)) ∧
    (∀ fromId toId, voucherVerified db fromId = false →
      calculateScore ⟨db.agents, db.vouches ++ [⟨fromId, toId⟩]⟩ now id =
        calculateScore db now id) ∧
    (∀ aId s, calculateScore (setStatus db aId s) now id =
        calculateScore db now id) ∧
    vouchFactorOf (qualifyingVouchCount db id : Int) =
      min ((qualifyingVouchCount db id : Int) * 5) 30 := by
  refine ⟨?_, ?_, ?_, rfl⟩
  · intro a ha
    exact calculateScore_eq db now id a ha
  · intro fromId toId hf
    unfold calculateScore
    have hfind : findAgent ⟨db.agents, db.vouches ++ [⟨fromId, toId⟩]⟩ id =
        findAgent db id := rfl
    rw [hfind]
    have hq : qualifyingVouchCount ⟨db.agents, db.vouches ++ [⟨fromId, toId⟩]⟩ id =
        qualifyingVouchCount db id := by
      unfold qualifyingVouchCount
      have hrw : ∀ x, voucherVerified ⟨db.agents, db.vouches ++ [⟨fromId, toId⟩]⟩ x =
          voucherVerified db x := fun x => rfl
      simp only [hrw]
      rw [List.filter_append]
      simp [hf]
    rw [hq]
  · intro aId s
    have hform : setStatus db aId s =
        ⟨db.agents.map (fun a => if a.id = aId then { a with status := s } else a),
         db.vouches⟩ := rfl
    rw [hform]
    have hmap := calculateScore_map db.agents db.vouches
      (fun a => if a.id = aId then { a with status := s } else a)
      (fun a => by by_cases h : a.id = aId <;> simp [h])
      (fun a => by by_cases h : a.id = aId <;> simp [h])
      (fun a => by by_cases h : a.id = aId <;> simp [h])
      (fun a => by by_cases h : a.id = aId <;> simp [h])
      now id
    exact hmap

/-- Witness for `vouch_factor_semantics` at a concrete state:
`cdbA` holds the verified agent `cAgentA` and no edges, and `"nobody"`
names no agent (so a vouch from it is unqualified). -/
theorem vouch_factor_semantics_witness :
    findAgent cdbA "A" = some cAgentA ∧
    calculateScore cdbA 432000000 "A" =
      verificationFactor cAgentA.moltbook_verified +
      karmaFactor cAgentA.moltbook_karma +
      ageFactor cAgentA.created_at 432000000 +
      vouchFactorOf (qualifyingVouchCount cdbA "A" : Int) ∧
    voucherVerified cdbA "nobody" = false ∧
    calculateScore ⟨cdbA.agents, cdbA.vouches ++ [⟨"nobody", "A"⟩]⟩ 432000000 "A" =
      calculateScore cdbA 432000000 "A" ∧
    calculateScore (setStatus cdbA "A" Status.suspended) 432000000 "A" =
      calculateScore cdbA 432000000 "A" :=
  ⟨by decide,
   (vouch_factor_semantics cdbA 432000000 "A").1 cAgentA (by decide),
   by decide,
   (vouch_factor_semantics cdbA 432000000 "A").2.1 "nobody" "A" (by decide),
   (vouch_factor_semantics cdbA 432000000 "A").2.2.1 "A" Status.suspended⟩

/-- C9 counterexample: the claim "a direct `addVouch` call inserts the
edge for every pair, subject only to the `(from, to)` uniqueness
constraint — existence is not enforced by the store or the schema" is
false on the program.  The vouches table's `FOREIGN KEY ... REFERENCES
agents(id)` constraints, enforced by D1, make an insert fail whenever
either id names no agent row: here `"ghost"` names no agent of `wdb`. -/
theorem store_addVouch_foreignkey_counterexample :
    addVouch wdb "ghost" "B" = Except.error StoreError.foreignKey ∧
    addVouch wdb "A" "ghost" = Except.error StoreError.foreignKey :=
  ⟨by rfl, by rfl⟩

/-- C9 (amended): the store-level `addVouch` performs no self-vouch,
existence, or verification check of its own; its only failure modes are
the schema constraints (the `(from, to)` unique index and the
foreign-key constraints requiring both ids to reference existing agent
rows).  For any pair of ids naming existing agents — including
`from == to`, and regardless of verification state — with no existing
edge, the call succeeds, appends the edge, and increments the
recipient's denormalized counter; every other agent row is untouched.
The no-self-loop rule lives only in the route handler: neither this
operation nor the schema (which has no `CHECK (from_agent_id <>
to_agent_id)`) prevents a self-loop. -/
theorem store_addVouch_amended (db : DB) (fromId toId : String)
    (h : hasEdge db fromId toId = false)
    (hf : (findAgent db fromId).isSome = true)
    (ht : (findAgent db toId).isSome = true) :
    addVouch db fromId toId = Except.ok (insertVouch db fromId toId) ∧
    (insertVouch db fromId toId).vouches = db.vouches ++ [⟨fromId, toId⟩] ∧
    findAgent (insertVouch db fromId toId) toId =
      (findAgent db toId).map bumpVouchCount ∧
    (∀ x, x ≠ toId → findAgent (insertVouch db fromId toId) x = findAgent db x) := by
  refine ⟨addVouch_ok db fromId toId h hf ht, rfl, ?_, ?_⟩
  · rw [findAgent_insertVouch]
    cases hto : findAgent db toId with
    | none => rfl
    | some a => simp [findAgent_id hto]
  · intro x hx
    rw [findAgent_insertVouch]
    cases hto : findAgent db x with
    | none => rfl
    | some a => simp [findAgent_id hto, hx]

/-- Witness for `store_addVouch_amended` on a self-pair: a direct store
call with `from == to == "A"` (an existing, unverified-irrelevant agent)
succeeds and bumps the agent's own counter. -/
theorem store_addVouch_amended_witness :
    hasEdge wdb "A" "A" = false ∧
    (findAgent wdb "A").isSome = true ∧
    addVouch wdb "A" "A" = Except.ok (insertVouch wdb "A" "A") ∧
    (insertVouch wdb "A" "A").vouches = wdb.vouches ++ [⟨"A", "A"⟩] ∧
    findAgent (insertVouch wdb "A" "A") "A" = (findAgent wdb "A").map bumpVouchCount :=
  ⟨by decide, by decide,
   (store_addVouch_amended wdb "A" "A" (by decide) (by decide) (by decide)).1,
   (store_addVouch_amended wdb "A" "A" (by decide) (by decide) (by decide)).2.1,
   (store_addVouch_amended wdb "A" "A" (by decide) (by decide) (by decide)).2.2.1⟩

/-- C4 (confirmed): when a vouch request succeeds (voucher exists and is
verified, target exists, not a self-vouch, no prior edge), repeating the
same request against the resulting state — at any later instant — fails
with `alreadyVouched` (the unique-constraint violation mapped to the
duplicate-edge error) and returns the state unchanged: neither the edge
set nor the recipient's counter is modified by the rejected call. -/
theorem duplicate_vouch_rejected (db : DB) (now now2 : Int)
    (fromId toId : String) (v t : Agent)
    (h1 : findAgent db fromId = some v) (h2 : v.moltbook_verified = true)
    (h3 : findAgent db toId = some t) (h4 : fromId ≠ toId)
    (h5 : hasEdge db fromId toId = false) :
    (∃ s, (vouchRoute db now toId fromId).1 = VouchOutcome.success s) ∧
    vouchRoute (vouchRoute db now toId fromId).2 now2 toId fromId =
      (VouchOutcome.alreadyVouched, (vouchRoute db now toId fromId).2) := by
  have hroute := vouchRoute_success db now fromId toId v t h1 h2 h3 h4 h5
  refine ⟨⟨calculateScore (insertVouch db fromId toId) now toId, by rw [hroute]⟩, ?_⟩
  rw [hroute]
  have hvid := findAgent_id h1
  have hv2 : findAgent
      (setTrustScore (insertVouch db fromId toId) toId
        (calculateScore (insertVouch db fromId toId) now toId)) fromId = some v := by
    rw [findAgent_setTrustScore, findAgent_insertVouch, h1]
    simp [hvid, h4]
  have htid := findAgent_id h3
  have ht2 : findAgent
      (setTrustScore (insertVouch db fromId toId) toId
        (calculateScore (insertVouch db fromId toId) now toId)) toId =
      some { bumpVouchCount t with
             trust_score := calculateScore (insertVouch db fromId toId) now toId } := by
    rw [findAgent_setTrustScore, findAgent_insertVouch, h3]
    simp [htid, bumpVouchCount]
  have hdup : hasEdge
      (setTrustScore (insertVouch db fromId toId) toId
        (calculateScore (insertVouch db fromId toId) now toId)) fromId toId = true :=
    hasEdge_insert db fromId toId
  unfold vouchRoute
  rw [hv2, ht2]
  simp only [h2, if_true, if_neg h4]
  rw [addVouch_dup _ _ _ hdup]

/-- Witness for `duplicate_vouch_rejected`: in `wdb`, a vouch from
verified `"A"` to `"B"` succeeds, and the identical second request is
rejected with `alreadyVouched`, state unchanged. -/
theorem duplicate_vouch_rejected_witness :
    (∃ s, (vouchRoute wdb 0 "B" "A").1 = VouchOutcome.success s) ∧
    vouchRoute (vouchRoute wdb 0 "B" "A").2 99 "B" "A" =
      (VouchOutcome.alreadyVouched, (vouchRoute wdb 0 "B" "A").2) :=
  duplicate_vouch_rejected wdb 0 99 "A" "B" wVoucher wTarget
    (by decide) (by decide) (by decide) (by decide) (by decide)

/-- C7 (confirmed): on a successful vouch from a verified voucher, the
route recomputes the recipient's score over the edge set that includes
the just-added edge and persists it: writing `S` for the score
recomputed over the pre-vouch state at the same instant, the returned
and persisted score is `S` when the vouch factor was already at its
30-point cap (at least 6 qualifying vouches) and `S + 5` otherwise. -/
theorem vouch_recompute_and_persist (db : DB) (now : Int)
    (fromId toId : String) (v t : Agent)
    (h1 : findAgent db fromId = some v) (h2 : v.moltbook_verified = true)
    (h3 : findAgent db toId = some t) (h4 : fromId ≠ toId)
    (h5 : hasEdge db fromId toId = false) :
    (vouchRoute db now toId fromId).1 =
      VouchOutcome.success
        (if 6 ≤ qualifyingVouchCount db toId then calculateScore db now toId
         else calculateScore db now toId + 5) ∧
    Option.map Agent.trust_score (findAgent (vouchRoute db now toId fromId).2 toId) =
      some (if 6 ≤ qualifyingVouchCount db toId then calculateScore db now toId
            else calculateScore db now toId + 5) := by
  have hv : voucherVerified db fromId = true := by
    unfold voucherVerified
    rw [h1]
    exact h2
  have hS : calculateScore (insertVouch db fromId toId) now toId =
      (if 6 ≤ qualifyingVouchCount db toId then calculateScore db now toId
       else calculateScore db now toId + 5) := by
    rw [calculateScore_insertVouch db now fromId toId t h3 hv,
        vouchFactorOf_succ, calculateScore_eq db now toId t h3]
    split <;> ring
  have hroute := vouchRoute_success db now fromId toId v t h1 h2 h3 h4 h5
  have htid := findAgent_id h3
  constructor
  · rw [hroute]
    simp only
    rw [hS]
  · rw [hroute]
    simp only
    rw [findAgent_setTrustScore, findAgent_insertVouch, h3]
    simp [htid, bumpVouchCount, hS]

/-- Witness for `vouch_recompute_and_persist`: in `wdb` (no prior
vouches, so the factor is below its cap), the vouch raises `"B"`'s
score by exactly 5 and the bumped score is persisted. -/
theorem vouch_recompute_and_persist_witness :
    (vouchRoute wdb 0 "B" "A").1 =
      VouchOutcome.success
        (if 6 ≤ qualifyingVouchCount wdb "B" then calculateScore wdb 0 "B"
         else calculateScore wdb 0 "B" + 5) ∧
    Option.map Agent.trust_score (findAgent (vouchRoute wdb 0 "B" "A").2 "B") =
      some (if 6 ≤ qualifyingVouchCount wdb "B" then calculateScore wdb 0 "B"
            else calculateScore wdb 0 "B" + 5) :=
  vouch_recompute_and_persist wdb 0 "A" "B" wVoucher wTarget
    (by decide) (by decide) (by decide) (by decide) (by decide)

end MoltID
